import Mathlib

/-!
Verification of the multi-session command execution engine of the AI-terminal
application, embedded shallowly from the Angular frontend component
(`src/ai-terminal/src/app/app.component.ts` and its earlier variant).

The component keeps the terminal state (command history, current input,
sudo-password capture state, autocomplete state) and reacts to
  * Tauri events `command_output` / `command_error` / `command_end`,
  * keyboard input (normal submission and masked sudo-password capture),
  * the terminate request.

Purely presentational fields (scroll flags, panel widths, the AI-chat pane)
and the `Date` timestamps carried by history entries are outside the model;
everything else follows the TypeScript source line by line.  Calls into the
Tauri backend (`invoke`) are modelled as an explicit `BackendCall` value
returned next to the successor state.
-/

namespace AiTerminal

/-- One entry of `commandHistory` (interface `CommandHistory` in the source).
`isStreaming` and `success` are optional in TypeScript; an absent
`isStreaming` is falsy, so it is modelled as a `Bool` defaulting to `false`,
while `success` keeps its three-valued nature as `Option Bool`.
The `timestamp : Date` field is not modelled. -/
structure CommandHistoryEntry where
  command : String
  output : List String
  isComplete : Bool
  isStreaming : Bool := false
  success : Option Bool := none
deriving Repr, DecidableEq

/-- The terminal-relevant mutable fields of `AppComponent`. -/
structure TerminalState where
  commandHistory : List CommandHistoryEntry := []
  currentCommand : String := ""
  isProcessing : Bool := false
  isSudoPasswordPrompt : Bool := false
  originalSudoCommand : String := ""
  passwordValue : String := ""
  displayValue : String := ""
  autocompleteSuggestions : List String := []
  showSuggestions : Bool := false
  selectedSuggestionIndex : Int := -1
  commandHistoryIndex : Int := -1
deriving Repr, DecidableEq

/-- A call the component makes into the Tauri backend via `invoke`.
The sudo secret travels only inside the dedicated `password` parameter of
`executeSudoCommand`; this type is disjoint from the incoming event stream,
so a backend call can never appear as an output line. -/
inductive BackendCall where
  | executeCommand (command : String)
  | executeSudoCommand (command : String) (password : String)
  | terminateCommand
  | autocomplete (input : String)
deriving Repr, DecidableEq

/-- Replaces the last element of a list by `f` of it, as the TypeScript code
mutates `commandHistory[commandHistory.length - 1]`. -/
def updateLast (f : α → α) : List α → List α
  | [] => []
  | [a] => [f a]
  | a :: b :: rest => a :: updateLast f (b :: rest)

/-- The masked echo `'*'.repeat(n)`. -/
def mask (n : Nat) : String := ⟨List.replicate n '*'⟩

/-- Whether `pat` matches the first characters of the second list. -/
def matchesAt : List Char → List Char → Bool
  | [], _ => true
  | _ :: _, [] => false
  | c :: cs, d :: ds => c == d && matchesAt cs ds

/-- Whether `needle` occurs contiguously somewhere in the list. -/
def occursIn (needle : List Char) : List Char → Bool
  | [] => needle.isEmpty
  | c :: cs => matchesAt needle (c :: cs) || occursIn needle cs

/-- TypeScript `haystack.includes(needle)`. -/
def containsSubstring (haystack needle : String) : Bool :=
  occursIn needle.data haystack.data

/-- TypeScript `s.startsWith(pre)`, phrased on the character lists so the
kernel can evaluate it. -/
def strStartsWith (s pre : String) : Bool := matchesAt pre.data s.data

/-- TypeScript `s.trim()`: strip whitespace from both ends. -/
def strTrim (s : String) : String :=
  ⟨((s.data.dropWhile Char.isWhitespace).reverse.dropWhile Char.isWhitespace).reverse⟩

def markerCommandStarted : String := "Command started. Output will stream in real-time."

def markerSudoStarted : String := "Sudo command started. Output will stream in real-time."

def sudoPasswordFragment : String := "[sudo] password for"

def successMessage : String := "Command completed successfully."

def processingLine : String := "Processing..."

def processingSudoLine : String := "Processing sudo command..."

def sudoPromptLine : String := "[sudo] password for user:"

def terminationMarker : String := "\n^C - Terminating process..."

/-- The `skipLine` predicate of the `command_output` listener: synthetic
marker lines and, during a sudo command, password-prompt fragments are
filtered. `entryCommand` is the `command` of the history entry the event
is applied to. -/
def skipLine (entryCommand line : String) : Bool :=
  line == markerCommandStarted ||
  line == markerSudoStarted ||
  (strStartsWith entryCommand "sudo " && containsSubstring line sudoPasswordFragment)

/-- First half of the `command_output` listener: mark the entry as streaming
and drop a lone "Processing..." indicator. -/
def markStreaming (cur : CommandHistoryEntry) : CommandHistoryEntry :=
  if !cur.isStreaming then
    { cur with
      isStreaming := true,
      output :=
        if cur.output = [processingLine] ∨ cur.output = [processingSudoLine] then []
        else cur.output }
  else cur

/-- For sudo commands, clear the lone "Processing sudo command..." message
when the first real output arrives. -/
def clearSudoProcessing (cur : CommandHistoryEntry) : CommandHistoryEntry :=
  if strStartsWith cur.command "sudo " ∧ cur.output = [processingSudoLine] then
    { cur with output := [] }
  else cur

/-- Effect of one `command_output` event on the current (last) history
entry. -/
def applyOutputLine (line : String) (cur : CommandHistoryEntry) : CommandHistoryEntry :=
  let cur := markStreaming cur
  if skipLine cur.command line then cur
  else
    let cur := clearSudoProcessing cur
    { cur with output := cur.output ++ [line] }

/-- The `command_output` listener of `ngOnInit`: if the history is nonempty,
the event payload is applied to the last entry. -/
def handleCommandOutput (st : TerminalState) (line : String) : TerminalState :=
  if st.commandHistory.isEmpty then st
  else { st with commandHistory := updateLast (applyOutputLine line) st.commandHistory }

/-- The `command_error` listener: the payload is pushed onto the last
entry's output. -/
def handleCommandError (st : TerminalState) (line : String) : TerminalState :=
  if st.commandHistory.isEmpty then st
  else
    { st with
      commandHistory :=
        updateLast (fun cur => { cur with output := cur.output ++ [line] })
          st.commandHistory }

def isCdCommandText (s : String) : Bool :=
  s == "cd" || strStartsWith s "cd "

/-- The `command_end` listener: marks the last entry complete, derives the
success flag from the payload, and clears `isProcessing`.  The returned
`Bool` records whether a working-directory refresh (`getCurrentDirectory`)
is triggered for a cd command. -/
def handleCommandEnd (st : TerminalState) (message : String) : TerminalState × Bool :=
  match st.commandHistory.getLast? with
  | none => (st, false)
  | some cur =>
    ({ st with
        commandHistory :=
          updateLast (fun e =>
            { e with
              isComplete := true,
              isStreaming := false,
              success := some (message == successMessage) }) st.commandHistory,
        isProcessing := false },
      isCdCommandText (strTrim cur.command))

/-- The `terminateCommand` method: resets the processing/suggestion state,
and if the history is nonempty pushes the `^C` marker onto the last entry,
marks it complete and failed, and fires the backend `terminate_command`
invoke (without awaiting it). -/
def terminateCommand (st : TerminalState) : TerminalState × Option BackendCall :=
  let st :=
    { st with
      isProcessing := false,
      showSuggestions := false,
      autocompleteSuggestions := [] }
  if st.commandHistory.isEmpty then (st, none)
  else
    ({ st with
        commandHistory :=
          updateLast (fun cur =>
            { cur with
              output := cur.output ++ [terminationMarker],
              isComplete := true,
              isStreaming := false,
              success := some false }) st.commandHistory },
      some BackendCall.terminateCommand)

/-- The Enter branch of `executeCommand` (reached when the trimmed input is
nonempty and no suggestion is selected): `isProcessing` is set and
suggestions are hidden; then `cls`/`clear` is handled locally by truncating
the history, a `sudo `-prefixed command switches to the masked password
prompt, and every other command is appended to the history and dispatched
to the backend `execute_command`. -/
def submitCommand (st : TerminalState) : TerminalState × Option BackendCall :=
  let st := { st with isProcessing := true, showSuggestions := false }
  let commandToSend := strTrim st.currentCommand
  if commandToSend == "cls" || commandToSend == "clear" then
    ({ st with commandHistory := [], currentCommand := "", isProcessing := false }, none)
  else if strStartsWith commandToSend "sudo " then
    ({ st with
        originalSudoCommand := commandToSend,
        isSudoPasswordPrompt := true,
        passwordValue := "",
        displayValue := "",
        currentCommand := "",
        commandHistory := st.commandHistory ++
          [{ command := commandToSend,
             output := [sudoPromptLine],
             isComplete := false,
             isStreaming := true }],
        isProcessing := false }, none)
  else
    ({ st with
        commandHistory := st.commandHistory ++
          [{ command := commandToSend, output := [], isComplete := false }],
        currentCommand := "",
        commandHistoryIndex := -1 },
      some (BackendCall.executeCommand commandToSend))

/-- A keystroke as the sudo-password branch of `executeCommand`
distinguishes them: a printable character (`event.key.length === 1`),
Enter, Backspace, Tab, or anything else. -/
inductive Key where
  | char (c : Char)
  | enter
  | backspace
  | tab
  | other
deriving Repr, DecidableEq

/-- One keystroke while `isSudoPasswordPrompt` is set (the password branch
of `executeCommand`): Tab is suppressed, Backspace shortens the secret,
Enter reads the secret, resets the capture state, rewrites the pending
history entry to the constant processing line and dispatches
`execute_sudo_command` with the secret as a dedicated parameter, and a
printable character extends the secret while the visible input shows only
the mask. -/
def sudoKeydown (st : TerminalState) : Key → TerminalState × Option BackendCall
  | Key.tab => (st, none)
  | Key.backspace =>
    let pv := st.passwordValue.dropRight 1
    ({ st with
        passwordValue := pv,
        displayValue := mask pv.length,
        currentCommand := mask pv.length }, none)
  | Key.enter =>
    let password := st.passwordValue
    ({ st with
        passwordValue := "",
        displayValue := "",
        currentCommand := "",
        isSudoPasswordPrompt := false,
        isProcessing := true,
        commandHistory :=
          updateLast (fun e =>
            { e with isStreaming := true, output := [processingSudoLine] })
            st.commandHistory },
      some (BackendCall.executeSudoCommand st.originalSudoCommand password))
  | Key.char c =>
    let pv := st.passwordValue.push c
    ({ st with
        passwordValue := pv,
        displayValue := mask pv.length,
        currentCommand := mask pv.length }, none)
  | Key.other => (st, none)

/-- Folds a list of keystrokes through `sudoKeydown`, dropping the backend
calls. -/
def processKeys (st : TerminalState) : List Key → TerminalState
  | [] => st
  | k :: ks => processKeys (sudoKeydown st k).1 ks

/-- The `requestAutocomplete` method: an empty trimmed input that is not a
cd command clears the suggestions and makes no backend request; otherwise
the backend `autocomplete` is invoked with the raw input and its response
`resp` becomes the suggestion list. -/
def requestAutocomplete (st : TerminalState) (resp : List String) :
    TerminalState × Option BackendCall :=
  let trimmedCommand := strTrim st.currentCommand
  let isCdCommand := trimmedCommand == "cd" || strStartsWith trimmedCommand "cd "
  if trimmedCommand.length == 0 && !isCdCommand then
    ({ st with autocompleteSuggestions := [], showSuggestions := false }, none)
  else
    ({ st with autocompleteSuggestions := resp, selectedSuggestionIndex := -1 },
      some (BackendCall.autocomplete st.currentCommand))

/-! ### The backend session store

Modelled from the spec: the Rust Tauri backend (the Session Store and Shell
Process Supervisor behind `invoke`) is not among the repository sources —
only its frontend callers and the multi-tab isolation test document are.
The definitions below follow the spec's contract for `run`,
`currentDirectory` and directory changes. -/

/-- Modelled from the spec: the state of an Execution,
`Pending`, `Streaming`, `Completed(success|failure)` or `Cancelled`. -/
inductive ExecState where
  | pending
  | streaming
  | completedOk
  | completedFail
  | cancelled
deriving Repr, DecidableEq

/-- An execution in state Pending or Streaming is still in flight. -/
def ExecState.isActive : ExecState → Bool
  | ExecState.pending => true
  | ExecState.streaming => true
  | _ => false

/-- Modelled from the spec: one terminal session of the backend Session
Store, with its working directory and at most one active execution. -/
structure Session where
  workingDirectory : String
  activeExecution : Option ExecState := none
deriving Repr, DecidableEq

/-- Modelled from the spec: the Session Store maps each session identifier
to its session state, when the session exists. -/
structure SessionStore where
  sessions : Nat → Option Session

/-- Modelled from the spec: `currentDirectory(sessionId) -> path`. -/
def SessionStore.currentDirectory (store : SessionStore) (sid : Nat) : Option String :=
  (store.sessions sid).map Session.workingDirectory

/-- Modelled from the spec: a directory-change command executed in session
`sid` updates that session's `workingDirectory` field directly, leaving
every other session untouched. -/
def SessionStore.changeDirectory (store : SessionStore) (sid : Nat) (path : String) :
    SessionStore :=
  ⟨fun k =>
    if k = sid then (store.sessions k).map fun s => { s with workingDirectory := path }
    else store.sessions k⟩

/-- Modelled from the spec: errors of the `run` request boundary. -/
inductive RunError where
  | alreadyRunning
  | noSuchSession
deriving Repr, DecidableEq

/-- Modelled from the spec: the process-spawn request handed to the Shell
Process Supervisor when a `run` is accepted. -/
structure SpawnRequest where
  workingDirectory : String
  commandText : String
deriving Repr, DecidableEq

/-- Modelled from the spec: `run(sessionId, commandText)` fails with
`AlreadyRunning` while an execution is Pending or Streaming in the session;
only an accepted request carries a `SpawnRequest`, so a rejected one starts
no process and queues nothing. -/
def SessionStore.run (store : SessionStore) (sid : Nat) (cmd : String) :
    Except RunError (SessionStore × SpawnRequest) :=
  match store.sessions sid with
  | none => Except.error RunError.noSuchSession
  | some sess =>
    if (sess.activeExecution.map ExecState.isActive).getD false then
      Except.error RunError.alreadyRunning
    else
      Except.ok
        (⟨fun k =>
            if k = sid then some { sess with activeExecution := some ExecState.pending }
            else store.sessions k⟩,
          ⟨sess.workingDirectory, cmd⟩)

/-! ### The streaming event bus -/

/-- An event of the streaming bus, as the frontend listeners receive them:
`command_output`, `command_error` and `command_end`. -/
inductive BusEvent where
  | output (line : String)
  | error (line : String)
  | ended (message : String)
deriving Repr, DecidableEq

def BusEvent.isEnd : BusEvent → Bool
  | BusEvent.ended _ => true
  | _ => false

/-- Helper for `isWellFormedStream`: error events followed by a single
terminal end event. -/
def isErrorsThenEnd : List BusEvent → Bool
  | [] => false
  | BusEvent.output _ :: _ => false
  | BusEvent.ended _ :: rest => rest.isEmpty
  | BusEvent.error _ :: rest => isErrorsThenEnd rest

/-- Modelled from the spec: the Rust backend emitter is not among the
repository sources; per the spec a per-execution stream is zero or more
output events, zero or more error events, then exactly one end event. -/
def isWellFormedStream : List BusEvent → Bool
  | [] => false
  | BusEvent.output _ :: rest => isWellFormedStream rest
  | BusEvent.error l :: rest => isErrorsThenEnd (BusEvent.error l :: rest)
  | BusEvent.ended m :: rest => isErrorsThenEnd (BusEvent.ended m :: rest)

/-! ### Helper lemmas -/

theorem updateLast_cons_of_ne (f : α → α) (x : α) {l : List α} (h : l ≠ []) :
    updateLast f (x :: l) = x :: updateLast f l := by
  cases l with
  | nil => exact absurd rfl h
  | cons y ys => rfl

theorem updateLast_concat (f : α → α) (hs : List α) (a : α) :
    updateLast f (hs ++ [a]) = hs ++ [f a] := by
  induction hs with
  | nil => rfl
  | cons x hs ih =>
    rw [List.cons_append, updateLast_cons_of_ne f x (by simp), ih, List.cons_append]

theorem markStreaming_command (cur : CommandHistoryEntry) :
    (markStreaming cur).command = cur.command := by
  unfold markStreaming
  split <;> rfl

theorem handleCommandOutput_concat (st : TerminalState) (line : String)
    (hs : List CommandHistoryEntry) (cur : CommandHistoryEntry)
    (h : st.commandHistory = hs ++ [cur]) :
    (handleCommandOutput st line).commandHistory = hs ++ [applyOutputLine line cur] := by
  have hne : st.commandHistory.isEmpty = false := by
    rw [h]; simp
  rw [handleCommandOutput, hne]
  simp only [Bool.false_eq_true, if_false]
  rw [h, updateLast_concat]

theorem handleCommandEnd_concat (st : TerminalState) (msg : String)
    (hs : List CommandHistoryEntry) (cur : CommandHistoryEntry)
    (h : st.commandHistory = hs ++ [cur]) :
    (handleCommandEnd st msg).1.commandHistory =
      hs ++ [{ cur with
                isComplete := true,
                isStreaming := false,
                success := some (msg == successMessage) }] := by
  have hget : st.commandHistory.getLast? = some cur := by
    rw [h]; exact List.getLast?_concat _
  rw [handleCommandEnd, hget]
  simp only
  rw [h, updateLast_concat]

theorem terminateCommand_concat (st : TerminalState)
    (hs : List CommandHistoryEntry) (cur : CommandHistoryEntry)
    (h : st.commandHistory = hs ++ [cur]) :
    (terminateCommand st).1.commandHistory =
      hs ++ [{ cur with
                output := cur.output ++ [terminationMarker],
                isComplete := true,
                isStreaming := false,
                success := some false }] ∧
    (terminateCommand st).2 = some BackendCall.terminateCommand := by
  have hne : st.commandHistory.isEmpty = false := by
    rw [h]; simp
  rw [terminateCommand]
  simp only [hne, Bool.false_eq_true, if_false]
  constructor
  · rw [h, updateLast_concat]
  · trivial

theorem strPush_data (s : String) (c : Char) : (s.push c).data = s.data ++ [c] := rfl

theorem sudo_not_clear {s : String} (h : strStartsWith s "sudo " = true) :
    (s == "cls" || s == "clear") = false := by
  have h1 : s ≠ "cls" := fun hs => by subst hs; exact absurd h (by decide)
  have h2 : s ≠ "clear" := fun hs => by subst hs; exact absurd h (by decide)
  simp [h1, h2]

theorem processKeys_chars (cs : List Char) (st : TerminalState)
    (hd : st.displayValue = mask st.passwordValue.length)
    (hc : st.currentCommand = st.displayValue) :
    (processKeys st (cs.map Key.char)).passwordValue.data = st.passwordValue.data ++ cs ∧
    (processKeys st (cs.map Key.char)).displayValue =
      mask (processKeys st (cs.map Key.char)).passwordValue.length ∧
    (processKeys st (cs.map Key.char)).currentCommand =
      (processKeys st (cs.map Key.char)).displayValue ∧
    (processKeys st (cs.map Key.char)).commandHistory = st.commandHistory ∧
    (processKeys st (cs.map Key.char)).isSudoPasswordPrompt = st.isSudoPasswordPrompt ∧
    (processKeys st (cs.map Key.char)).originalSudoCommand = st.originalSudoCommand := by
  induction cs generalizing st with
  | nil => exact ⟨by simp [processKeys], hd, hc, rfl, rfl, rfl⟩
  | cons c cs ih =>
    have hstep := ih ((sudoKeydown st (Key.char c)).1) (by rfl) (by rfl)
    simp only [List.map_cons, processKeys]
    refine ⟨?_, hstep.2.1, hstep.2.2.1, hstep.2.2.2.1, hstep.2.2.2.2.1, hstep.2.2.2.2.2⟩
    rw [hstep.1]
    simp [sudoKeydown, strPush_data]

/-! ### Claim theorems -/

theorem submitCommand_sudo (st : TerminalState)
    (hsudo : strStartsWith (strTrim st.currentCommand) "sudo " = true) :
    (submitCommand st).1 =
      { st with
        originalSudoCommand := strTrim st.currentCommand,
        isSudoPasswordPrompt := true,
        passwordValue := "",
        displayValue := "",
        currentCommand := "",
        commandHistory := st.commandHistory ++
          [{ command := strTrim st.currentCommand,
             output := [sudoPromptLine],
             isComplete := false,
             isStreaming := true }],
        isProcessing := false,
        showSuggestions := false } ∧
    (submitCommand st).2 = none := by
  have hbr := sudo_not_clear hsudo
  constructor <;> simp [submitCommand, hbr, hsudo]

/-- C3: while a sudo secret is captured, each typed character goes into
`passwordValue` while the visible input shows only the mask `'*'` repeated
to the buffer's length, and the command history keeps exactly the original
command text with the constant prompt line — the raw secret never reaches
it, whatever was typed. -/
theorem sudo_secret_masked_and_kept_out_of_history (st : TerminalState) (cs : List Char)
    (hsudo : strStartsWith (strTrim st.currentCommand) "sudo " = true) :
    (processKeys (submitCommand st).1 (cs.map Key.char)).passwordValue.data = cs ∧
    (processKeys (submitCommand st).1 (cs.map Key.char)).displayValue =
      mask (processKeys (submitCommand st).1 (cs.map Key.char)).passwordValue.length ∧
    (processKeys (submitCommand st).1 (cs.map Key.char)).currentCommand =
      (processKeys (submitCommand st).1 (cs.map Key.char)).displayValue ∧
    (processKeys (submitCommand st).1 (cs.map Key.char)).commandHistory =
      st.commandHistory ++
        [{ command := strTrim st.currentCommand,
           output := [sudoPromptLine],
           isComplete := false,
           isStreaming := true }] := by
  obtain ⟨h1, _⟩ := submitCommand_sudo st hsudo
  have hd : (submitCommand st).1.displayValue =
      mask (submitCommand st).1.passwordValue.length := by rw [h1]; rfl
  have hc : (submitCommand st).1.currentCommand = (submitCommand st).1.displayValue := by
    rw [h1]
  obtain ⟨hpv, hdv, hcc, hch, _, _⟩ := processKeys_chars cs (submitCommand st).1 hd hc
  refine ⟨?_, hdv, hcc, ?_⟩
  · rw [hpv, h1]
    rfl
  · rw [hch, h1]

/-- Witness for `sudo_secret_masked_and_kept_out_of_history` at the command
`sudo apt update` with the typed secret `hi`. -/
theorem sudo_secret_masked_witness :
    strStartsWith (strTrim "sudo apt update") "sudo " = true ∧
    ((processKeys (submitCommand { currentCommand := "sudo apt update" }).1
        (['h', 'i'].map Key.char)).passwordValue.data = ['h', 'i'] ∧
      (processKeys (submitCommand { currentCommand := "sudo apt update" }).1
          (['h', 'i'].map Key.char)).displayValue =
        mask (processKeys (submitCommand { currentCommand := "sudo apt update" }).1
          (['h', 'i'].map Key.char)).passwordValue.length ∧
      (processKeys (submitCommand { currentCommand := "sudo apt update" }).1
          (['h', 'i'].map Key.char)).currentCommand =
        (processKeys (submitCommand { currentCommand := "sudo apt update" }).1
          (['h', 'i'].map Key.char)).displayValue ∧
      (processKeys (submitCommand { currentCommand := "sudo apt update" }).1
          (['h', 'i'].map Key.char)).commandHistory =
        [] ++ [{ command := strTrim "sudo apt update",
                 output := [sudoPromptLine],
                 isComplete := false,
                 isStreaming := true }]) :=
  ⟨by decide,
    sudo_secret_masked_and_kept_out_of_history { currentCommand := "sudo apt update" }
      ['h', 'i'] (by decide)⟩

/-- C7: submitting the secret dispatches `execute_sudo_command` with the
secret only in its dedicated password parameter — a backend call value,
disjoint by type from the output-event stream — while the secret buffer,
its masked display, the input line and the prompt flag are all cleared in
the same step that issues the dispatch, before any completion event is
observed, and the pending history entry is rewritten to the constant
processing line, not the secret. -/
theorem sudo_secret_dispatch (st : TerminalState)
    (hs : List CommandHistoryEntry) (cur : CommandHistoryEntry)
    (h : st.commandHistory = hs ++ [cur]) :
    (sudoKeydown st Key.enter).2 =
      some (BackendCall.executeSudoCommand st.originalSudoCommand st.passwordValue) ∧
    (sudoKeydown st Key.enter).1.passwordValue = "" ∧
    (sudoKeydown st Key.enter).1.displayValue = "" ∧
    (sudoKeydown st Key.enter).1.currentCommand = "" ∧
    (sudoKeydown st Key.enter).1.isSudoPasswordPrompt = false ∧
    (sudoKeydown st Key.enter).1.commandHistory =
      hs ++ [{ cur with isStreaming := true, output := [processingSudoLine] }] := by
  refine ⟨rfl, rfl, rfl, rfl, rfl, ?_⟩
  show updateLast _ st.commandHistory = _
  rw [h, updateLast_concat]

/-- The pending sudo history entry used by the concrete dispatch example. -/
def sudoLsEntry : CommandHistoryEntry :=
  { command := "sudo ls"
    output := [sudoPromptLine]
    isComplete := false
    isStreaming := true }

/-- A state awaiting the sudo secret for `sudo ls`, with `hunter2` typed. -/
def sudoPromptState : TerminalState :=
  { commandHistory := [sudoLsEntry]
    originalSudoCommand := "sudo ls"
    passwordValue := "hunter2"
    isSudoPasswordPrompt := true }

/-- Witness for `sudo_secret_dispatch` with secret `hunter2`. -/
theorem sudo_secret_dispatch_witness :
    (sudoKeydown sudoPromptState Key.enter).2 =
      some (BackendCall.executeSudoCommand sudoPromptState.originalSudoCommand
        sudoPromptState.passwordValue) ∧
    (sudoKeydown sudoPromptState Key.enter).1.passwordValue = "" ∧
    (sudoKeydown sudoPromptState Key.enter).1.displayValue = "" ∧
    (sudoKeydown sudoPromptState Key.enter).1.currentCommand = "" ∧
    (sudoKeydown sudoPromptState Key.enter).1.isSudoPasswordPrompt = false ∧
    (sudoKeydown sudoPromptState Key.enter).1.commandHistory =
      [] ++ [{ sudoLsEntry with isStreaming := true, output := [processingSudoLine] }] :=
  sudo_secret_dispatch sudoPromptState [] sudoLsEntry rfl

/-- A history entry recording a naturally successful `ls` run. -/
def lsDoneEntry : CommandHistoryEntry :=
  { command := "ls"
    output := ["done"]
    isComplete := true
    isStreaming := false
    success := some true }

/-- Concrete state whose single command has completed successfully. -/
def completedLsState : TerminalState :=
  { commandHistory := [lsDoneEntry] }

/-- C5 counterexample: `terminateCommand` after natural successful
completion is not an idempotent no-op — the first call overwrites the
success flag and a second call mutates the state again (it appends the
`^C` marker once more). -/
theorem terminate_not_idempotent_counterexample :
    completedLsState.commandHistory.map CommandHistoryEntry.success = [some true] ∧
    (terminateCommand completedLsState).1.commandHistory.map CommandHistoryEntry.success
      = [some false] ∧
    (terminateCommand (terminateCommand completedLsState).1).1 ≠
      (terminateCommand completedLsState).1 := by
  refine ⟨rfl, rfl, ?_⟩
  decide

/-- C5 amended: calling `terminateCommand` twice, or after natural
completion, raises no error (the handler is total) and emits no completion
event of its own — the only backend interaction is the fire-and-forget
terminate invoke — but it is not a no-op: every call on a nonempty history
appends the `^C` marker line to the last entry's output, marks it complete
and not streaming, and forces its success flag to false. -/
theorem terminate_always_appends_marker (st : TerminalState)
    (hs : List CommandHistoryEntry) (cur : CommandHistoryEntry)
    (h : st.commandHistory = hs ++ [cur]) :
    (terminateCommand st).1.commandHistory =
      hs ++ [{ cur with
                output := cur.output ++ [terminationMarker],
                isComplete := true,
                isStreaming := false,
                success := some false }] ∧
    (terminateCommand st).2 = some BackendCall.terminateCommand :=
  terminateCommand_concat st hs cur h

/-- Witness for `terminate_always_appends_marker` at the completed state. -/
theorem terminate_always_appends_marker_witness :
    (terminateCommand completedLsState).1.commandHistory =
      [] ++ [{ command := "ls",
               output := ["done"] ++ [terminationMarker],
               isComplete := true,
               isStreaming := false,
               success := some false }] ∧
    (terminateCommand completedLsState).2 = some BackendCall.terminateCommand :=
  terminate_always_appends_marker completedLsState [] lsDoneEntry rfl

/-- C6: a submitted command whose trimmed text is `cls` or `clear` is
handled entirely locally: the command history is truncated to empty, no
backend execute call is made, and processing ends at once. -/
theorem clear_handled_locally (st : TerminalState)
    (h : strTrim st.currentCommand = "cls" ∨ strTrim st.currentCommand = "clear") :
    (submitCommand st).1.commandHistory = [] ∧
    (submitCommand st).2 = none ∧
    (submitCommand st).1.isProcessing = false := by
  rcases h with h | h <;> simp [submitCommand, h]

/-- Witness for `clear_handled_locally` at the input `" clear "`. -/
theorem clear_handled_locally_witness :
    (strTrim " clear " = "cls" ∨ strTrim " clear " = "clear") ∧
    ((submitCommand { currentCommand := " clear " }).1.commandHistory = [] ∧
      (submitCommand { currentCommand := " clear " }).2 = none ∧
      (submitCommand { currentCommand := " clear " }).1.isProcessing = false) :=
  ⟨Or.inr (by decide), clear_handled_locally _ (Or.inr (by decide))⟩

/-- C8: an incoming `command_output` payload equal to one of the two
"started" marker strings, or containing the sudo password-prompt fragment
while the entry's command is sudo-prefixed, is filtered and never appended
to the entry's output; any other payload is appended (after the
"Processing..." placeholder bookkeeping of `markStreaming` and
`clearSudoProcessing`). -/
theorem output_marker_filtering (st : TerminalState) (line : String)
    (hs : List CommandHistoryEntry) (cur : CommandHistoryEntry)
    (h : st.commandHistory = hs ++ [cur]) :
    ((line = markerCommandStarted ∨ line = markerSudoStarted ∨
        (strStartsWith cur.command "sudo " = true ∧
          containsSubstring line sudoPasswordFragment = true)) →
      (handleCommandOutput st line).commandHistory = hs ++ [markStreaming cur]) ∧
    (skipLine cur.command line = false →
      (handleCommandOutput st line).commandHistory =
        hs ++ [{ clearSudoProcessing (markStreaming cur) with
                  output := (clearSudoProcessing (markStreaming cur)).output ++ [line] }]) := by
  have hmain := handleCommandOutput_concat st line hs cur h
  have hiff : skipLine cur.command line = true ↔
      (line = markerCommandStarted ∨ line = markerSudoStarted ∨
        (strStartsWith cur.command "sudo " = true ∧
          containsSubstring line sudoPasswordFragment = true)) := by
    simp [skipLine, Bool.or_eq_true, Bool.and_eq_true, beq_iff_eq, or_assoc]
  constructor
  · intro hmark
    rw [hmain]
    have hskip : skipLine cur.command line = true := hiff.mpr hmark
    simp only [applyOutputLine, markStreaming_command, hskip, if_true]
  · intro hskip
    rw [hmain]
    simp only [applyOutputLine, markStreaming_command, hskip, Bool.false_eq_true, if_false]

/-- Witness for `output_marker_filtering`: the started marker is dropped,
an ordinary line is appended. -/
theorem output_marker_filtering_witness :
    ((handleCommandOutput
        { commandHistory := [{ command := "ls", output := [], isComplete := false }] }
        markerCommandStarted).commandHistory =
      [] ++ [markStreaming { command := "ls", output := [], isComplete := false }]) ∧
    ((handleCommandOutput
        { commandHistory := [{ command := "ls", output := [], isComplete := false }] }
        "file.txt").commandHistory =
      [] ++ [{ clearSudoProcessing (markStreaming
                  { command := "ls", output := [], isComplete := false }) with
                output := (clearSudoProcessing (markStreaming
                  { command := "ls", output := [], isComplete := false })).output ++
                  ["file.txt"] }]) :=
  ⟨(output_marker_filtering _ markerCommandStarted []
      { command := "ls", output := [], isComplete := false } rfl).1 (Or.inl rfl),
    (output_marker_filtering _ "file.txt" []
      { command := "ls", output := [], isComplete := false } rfl).2 (by decide)⟩

/-- C9: a completion request on an empty trimmed input (which is never a
cd command) clears the suggestion list, hides it, and issues no backend
call; a completion request on the bare keyword `cd` still issues the
backend autocomplete call. -/
theorem autocomplete_empty_vs_cd (st : TerminalState) (resp : List String) :
    (strTrim st.currentCommand = "" →
      requestAutocomplete st resp =
        ({ st with autocompleteSuggestions := [], showSuggestions := false }, none)) ∧
    (strTrim st.currentCommand = "cd" →
      (requestAutocomplete st resp).2 = some (BackendCall.autocomplete st.currentCommand)) := by
  constructor <;> intro h <;>
    simp [requestAutocomplete, h, strStartsWith, matchesAt]

/-- Witness for `autocomplete_empty_vs_cd` at the inputs `"  "` and `"cd"`. -/
theorem autocomplete_empty_vs_cd_witness :
    (requestAutocomplete { currentCommand := "  " } ["alpha"] =
      ({ currentCommand := "  ", autocompleteSuggestions := [], showSuggestions := false },
        none)) ∧
    ((requestAutocomplete { currentCommand := "cd" } ["alpha"]).2 =
      some (BackendCall.autocomplete "cd")) :=
  ⟨(autocomplete_empty_vs_cd { currentCommand := "  " } ["alpha"]).1 (by decide),
    (autocomplete_empty_vs_cd { currentCommand := "cd" } ["alpha"]).2 (by decide)⟩

/-- C10: after a `command_end` event, the entry's success flag is true
exactly when the payload is the literal success message; every other
payload marks the execution failed. -/
theorem command_end_success_iff (st : TerminalState) (msg : String)
    (hs : List CommandHistoryEntry) (cur : CommandHistoryEntry)
    (h : st.commandHistory = hs ++ [cur]) :
    ((handleCommandEnd st msg).1.commandHistory.getLast?.map CommandHistoryEntry.success
        = some (some true) ↔ msg = successMessage) ∧
    (msg ≠ successMessage →
      (handleCommandEnd st msg).1.commandHistory.getLast?.map CommandHistoryEntry.success
        = some (some false)) := by
  have hend := handleCommandEnd_concat st msg hs cur h
  rw [hend]
  constructor
  · rw [List.getLast?_concat]
    simp [beq_iff_eq]
  · intro hne
    rw [List.getLast?_concat]
    simp [beq_iff_eq, hne]

/-- Witness for `command_end_success_iff`: the success payload sets the
flag, a failure payload clears it. -/
theorem command_end_success_iff_witness :
    (((handleCommandEnd
          { commandHistory := [{ command := "ls", output := [], isComplete := false }] }
          successMessage).1.commandHistory.getLast?.map CommandHistoryEntry.success
        = some (some true) ↔ successMessage = successMessage) ∧
      ("Command failed." ≠ successMessage →
        (handleCommandEnd
            { commandHistory := [{ command := "ls", output := [], isComplete := false }] }
            "Command failed.").1.commandHistory.getLast?.map CommandHistoryEntry.success
          = some (some false))) ∧
    (handleCommandEnd
        { commandHistory := [{ command := "ls", output := [], isComplete := false }] }
        "Command failed.").1.commandHistory.getLast?.map CommandHistoryEntry.success
      = some (some false) :=
  ⟨⟨(command_end_success_iff _ successMessage []
        { command := "ls", output := [], isComplete := false } rfl).1,
      (command_end_success_iff _ "Command failed." []
        { command := "ls", output := [], isComplete := false } rfl).2⟩,
    (command_end_success_iff _ "Command failed." []
      { command := "ls", output := [], isComplete := false } rfl).2 (by decide)⟩

theorem isErrorsThenEnd_count (evs : List BusEvent) (h : isErrorsThenEnd evs = true) :
    evs.countP (fun e => BusEvent.isEnd e) = 1 := by
  induction evs with
  | nil => simp [isErrorsThenEnd] at h
  | cons e rest ih =>
    cases e with
    | output l => simp [isErrorsThenEnd] at h
    | error l =>
      rw [isErrorsThenEnd] at h
      have he : BusEvent.isEnd (BusEvent.error l) = false := rfl
      simp [List.countP_cons, he, ih h]
    | ended m =>
      rw [isErrorsThenEnd] at h
      have hrest : rest = [] := by simpa using h
      subst hrest
      have he : BusEvent.isEnd (BusEvent.ended m) = true := rfl
      simp [List.countP_cons, he]

theorem wellFormed_single_end (evs : List BusEvent) (h : isWellFormedStream evs = true) :
    evs.countP (fun e => BusEvent.isEnd e) = 1 := by
  induction evs with
  | nil => simp [isWellFormedStream] at h
  | cons e rest ih =>
    cases e with
    | output l =>
      rw [isWellFormedStream] at h
      have he : BusEvent.isEnd (BusEvent.output l) = false := rfl
      simp [List.countP_cons, he, ih h]
    | error l =>
      rw [isWellFormedStream] at h
      exact isErrorsThenEnd_count _ h
    | ended m =>
      rw [isWellFormedStream] at h
      exact isErrorsThenEnd_count _ h

/-- A history entry already in a terminal state (complete, success). -/
def staleDoneEntry : CommandHistoryEntry :=
  { command := "ls"
    output := ["old"]
    isComplete := true
    isStreaming := false
    success := some true }

/-- A state whose only history entry is already terminal. -/
def staleDoneState : TerminalState :=
  { commandHistory := [staleDoneEntry] }

/-- C4 counterexample: the single history entry has already reached a
terminal state (`isComplete = true` after a successful completion), yet a
late `command_output` event is still applied to it — the listener appends
the payload to the entry's output, contradicting the claim that no further
event is applied once the execution is terminal. -/
theorem post_terminal_event_applied_counterexample :
    staleDoneEntry.isComplete = true ∧
    (handleCommandOutput staleDoneState "straggler").commandHistory.map
        CommandHistoryEntry.output = [["old", "straggler"]] :=
  ⟨rfl, rfl⟩

/-- C4 amended: the (spec-modelled) well-formed event stream carries
exactly one terminal end event, and applying it marks the entry complete
and no longer streaming; however the frontend listeners do not guard on
terminal state, so an unfiltered output event arriving once the entry is
already terminal is still applied to it, appending its line. -/
theorem stream_single_end_no_terminal_guard (evs : List BusEvent)
    (st : TerminalState) (msg line : String)
    (hs : List CommandHistoryEntry) (cur : CommandHistoryEntry)
    (hwf : isWellFormedStream evs = true)
    (h : st.commandHistory = hs ++ [cur])
    (_hterm : cur.isComplete = true)
    (hskip : skipLine cur.command line = false) :
    evs.countP (fun e => BusEvent.isEnd e) = 1 ∧
    (handleCommandEnd st msg).1.commandHistory.getLast?.map
        (fun e => (e.isComplete, e.isStreaming)) = some (true, false) ∧
    (handleCommandOutput st line).commandHistory.getLast?.map CommandHistoryEntry.output =
      some ((clearSudoProcessing (markStreaming cur)).output ++ [line]) := by
  refine ⟨wellFormed_single_end evs hwf, ?_, ?_⟩
  · rw [handleCommandEnd_concat st msg hs cur h, List.getLast?_concat]
    rfl
  · rw [handleCommandOutput_concat st line hs cur h, List.getLast?_concat]
    simp only [applyOutputLine, markStreaming_command, hskip, Bool.false_eq_true, if_false]
    rfl

/-- Witness for `stream_single_end_no_terminal_guard` at a two-event
stream and the stale terminal state. -/
theorem stream_single_end_no_terminal_guard_witness :
    ([BusEvent.output "a", BusEvent.ended "Command completed successfully."].countP
        (fun e => BusEvent.isEnd e) = 1) ∧
    ((handleCommandEnd staleDoneState "Command failed.").1.commandHistory.getLast?.map
        (fun e => (e.isComplete, e.isStreaming)) = some (true, false)) ∧
    ((handleCommandOutput staleDoneState "straggler").commandHistory.getLast?.map
        CommandHistoryEntry.output =
      some ((clearSudoProcessing (markStreaming staleDoneEntry)).output ++ ["straggler"])) :=
  stream_single_end_no_terminal_guard
    [BusEvent.output "a", BusEvent.ended "Command completed successfully."]
    staleDoneState "Command failed." "straggler" [] staleDoneEntry
    (by decide) rfl rfl (by decide)

/-- C1 (spec-modelled): a directory change executed in one session leaves
every other session's working directory unchanged — querying the other
session still returns its original directory. -/
theorem session_cd_isolation (store : SessionStore) (s1 s2 : Nat) (path : String)
    (h : s1 ≠ s2) :
    (store.changeDirectory s1 path).currentDirectory s2 = store.currentDirectory s2 := by
  simp only [SessionStore.changeDirectory, SessionStore.currentDirectory]
  rw [if_neg (Ne.symm h)]

/-- Two sessions with distinct working directories. -/
def demoStore : SessionStore :=
  ⟨fun k =>
    if k = 1 then some { workingDirectory := "/home/alice" }
    else if k = 2 then some { workingDirectory := "/home/bob" }
    else none⟩

/-- Witness for `session_cd_isolation`: `cd /tmp` in session 1 leaves
session 2 at its original directory. -/
theorem session_cd_isolation_witness :
    (1 : Nat) ≠ 2 ∧
    ((demoStore.changeDirectory 1 "/tmp").currentDirectory 2 = demoStore.currentDirectory 2) ∧
    (demoStore.changeDirectory 1 "/tmp").currentDirectory 2 = some "/home/bob" :=
  ⟨by decide, session_cd_isolation demoStore 1 2 "/tmp" (by decide), by decide⟩

/-- C2 (spec-modelled): a `run` request on a session whose execution is
Pending or Streaming is rejected synchronously with `AlreadyRunning`; the
error result carries no `SpawnRequest` and no store update, so no second
process is started and nothing is queued. -/
theorem run_rejected_while_active (store : SessionStore) (sid : Nat) (cmd : String)
    (sess : Session) (es : ExecState)
    (hl : store.sessions sid = some sess)
    (ha : sess.activeExecution = some es)
    (hact : es = ExecState.pending ∨ es = ExecState.streaming) :
    store.run sid cmd = Except.error RunError.alreadyRunning := by
  unfold SessionStore.run
  rw [hl]
  rcases hact with rfl | rfl <;> simp [ha, ExecState.isActive]

/-- A store whose single session has a streaming execution. -/
def busyStore : SessionStore :=
  ⟨fun k =>
    if k = 1 then
      some { workingDirectory := "/home/alice", activeExecution := some ExecState.streaming }
    else none⟩

/-- Witness for `run_rejected_while_active` on the busy store. -/
theorem run_rejected_while_active_witness :
    busyStore.run 1 "ls" = Except.error RunError.alreadyRunning :=
  run_rejected_while_active busyStore 1 "ls"
    { workingDirectory := "/home/alice", activeExecution := some ExecState.streaming }
    ExecState.streaming (by decide) rfl (Or.inr rfl)

end AiTerminal
